import Mathlib

/-!
# Verification of `hubspace_async.auth`

Shallow embedding of `src/hubspace_async/auth.py` (class `HubSpaceAuth` and the
module-level helpers `extract_login_data` and `generate_token`), together with
proofs of the specification's claims about it.

Modelling conventions:
* Python strings are Lean `String`s; timestamps (`datetime.datetime.now().timestamp()`)
  are modelled as integers (`Int`): the code only adds the constant `TOKEN_TIMEOUT`
  to them and compares with `>=`, so the ordered-additive structure is all that
  matters.
* HTTP responses are records carrying the fields the code reads (status, the
  `location` header, the JSON body's string fields, the HTML body abstracted as
  the element list the HTML-parsing capability exposes).
* Exceptions are modelled with `Except AuthError`; the module's own exception
  classes `InvalidAuth` / `InvalidResponse` are two constructors, transport-level
  errors raised by `response.raise_for_status()` a third, and Python's
  `AttributeError` (reachable in principle at `self._token_data.token`) a fourth.
* `urllib.parse.parse_qs` / `urlparse` and the byte-level primitives
  (`base64.urlsafe_b64encode`, `hashlib.sha256`) are external standard-library
  calls; they are embedded here following their documented semantics, restricted
  to the inputs this module feeds them (ASCII text, byte values `< 256`).
-/

deriving instance DecidableEq for Except

/-- The exception outcomes of the auth module: its own `InvalidAuth` and
`InvalidResponse` classes, transport errors from `raise_for_status`, and
Python's `AttributeError`. -/
inductive AuthError where
  | invalidAuth
  | invalidResponse
  | httpError
  | attributeError
  deriving DecidableEq, Repr

/-- `TOKEN_TIMEOUT` from the source: seconds of validity granted to a token. -/
def TOKEN_TIMEOUT : Int := 118

/-- `token_data = namedtuple("TokenData", ["token", "expiration"])`. -/
structure TokenData where
  token : String
  expiration : Int
  deriving DecidableEq, Repr

/-- `auth_sess_data = namedtuple("AuthSessionData", ["session_code", "execution", "tab_id"])`. -/
structure AuthSessData where
  session_code : String
  execution : String
  tab_id : String
  deriving DecidableEq, Repr

/-- `auth_challenge = namedtuple("AuthChallenge", ["challenge", "verifier"])`. -/
structure AuthChallenge where
  challenge : String
  verifier : String
  deriving DecidableEq, Repr

/-! ## `urllib.parse` model -/

/-- Value of a hexadecimal digit, if the character is one. -/
def hexVal (c : Char) : Option Nat :=
  if '0' ≤ c ∧ c ≤ '9' then some (c.toNat - '0'.toNat)
  else if 'a' ≤ c ∧ c ≤ 'f' then some (c.toNat - 'a'.toNat + 10)
  else if 'A' ≤ c ∧ c ≤ 'F' then some (c.toNat - 'A'.toNat + 10)
  else none

/-- Character-level model of `urllib.parse.unquote_plus`: `+` becomes a space
and `%XY` (two hex digits) becomes the character with code `16*X + Y`.
(For the ASCII data this module handles this matches CPython; multi-byte UTF-8
percent-sequences are outside the model.) -/
def unquotePlus : List Char → List Char
  | [] => []
  | '%' :: a :: b :: rest =>
    match hexVal a, hexVal b with
    | some ha, some hb => Char.ofNat (16 * ha + hb) :: unquotePlus rest
    | _, _ => '%' :: unquotePlus (a :: b :: rest)
  | '+' :: rest => ' ' :: unquotePlus rest
  | c :: rest => c :: unquotePlus rest

/-- `unquote_plus` on strings. -/
def unquotePlusStr (s : String) : String :=
  String.mk (unquotePlus s.data)

/-- Python `s.split(sep)` for a one-character separator (the only kind this
module uses): split into the (possibly empty) chunks between occurrences of
`sep`; the empty string yields `[""]`. -/
def splitOnChar (sep : Char) : List Char → List (List Char)
  | [] => [[]]
  | c :: rest =>
    if c = sep then [] :: splitOnChar sep rest
    else
      match splitOnChar sep rest with
      | [] => [[c]]
      | chunk :: chunks => (c :: chunk) :: chunks

/-- Python `s.split("=", 1)` when `"="` occurs in `s`: the part before the
first `=` and everything after it. `none` when there is no `=`. -/
def splitFirstEq : List Char → Option (List Char × List Char)
  | [] => none
  | c :: rest =>
    if c = '=' then some ([], rest)
    else
      match splitFirstEq rest with
      | none => none
      | some (k, v) => some (c :: k, v)

/-- `urllib.parse.parse_qsl(qs)` with the default arguments
(`keep_blank_values=False`, separator `&`): split on `&`, skip chunks with no
`=` or an empty value, `unquote_plus` names and values. -/
def parse_qsl (qs : String) : List (String × String) :=
  (splitOnChar '&' qs.data).filterMap fun nv =>
    match splitFirstEq nv with
    | none => none
    | some (k, v) =>
      if v = [] then none
      else some (String.mk (unquotePlus k), String.mk (unquotePlus v))

/-- `parse_qs(qs)[key][0]` as used throughout the module: the first value bound
to `key` in the query string, if any (`parse_qs` groups values per key in
insertion order, so element `[0]` is the first matching pair of `parse_qsl`). -/
def firstQsValue (qs : String) (key : String) : Option String :=
  (parse_qsl qs).lookup key

/-- Everything after the first occurrence of `sep`, if `sep` occurs:
Python `s.split(sep, 1)[1]`. -/
def afterFirst (sep : Char) : List Char → Option (List Char)
  | [] => none
  | c :: rest => if c = sep then some rest else afterFirst sep rest

/-- `urlparse(url).query`: drop the fragment (everything from the first `#`),
then take everything after the first `?` (empty if there is none). -/
def urlQuery (url : String) : String :=
  let nofrag := (splitOnChar '#' url.data).headD []
  match afterFirst '?' nofrag with
  | none => ""
  | some q => String.mk q

/-! ## `HubSpaceAuth.generate_code` (credential submitter) -/

/-- The parts of the credential-submission POST response that
`generate_code` reads: the status code and the (optional) `location` header. -/
structure CodeResponse where
  status : Nat
  location : Option String
  deriving DecidableEq, Repr

/-- `HubSpaceAuth.generate_code`, lines 172-193 of `auth.py`, after the POST:
a status other than 302 raises `InvalidResponse`; otherwise
`parse_qs(urlparse(response.headers["location"]).query)["code"][0]` is
returned, any `KeyError` (missing header or missing `code` parameter)
raising `InvalidAuth`. -/
def generate_code (resp : CodeResponse) : Except AuthError String :=
  if resp.status ≠ 302 then
    .error .invalidResponse
  else
    match resp.location with
    | none => .error .invalidAuth
    | some loc =>
      match firstQsValue (urlQuery loc) "code" with
      | none => .error .invalidAuth
      | some code => .ok code

/-! ## `extract_login_data` (login-page scraping)

The HTML-parsing capability (`BeautifulSoup`) is abstracted to what the code
uses of it: a document is the list of its elements, each an attribute map, and
`find(id=...)` returns the first element whose `id` attribute equals the
requested value. -/

/-- An HTML element, reduced to its attribute dictionary. -/
structure HtmlElement where
  attrs : List (String × String)
  deriving DecidableEq, Repr

/-- `BeautifulSoup(page).find(id=domId)`: the first element whose `id`
attribute is `domId`, if any. -/
def findById (page : List HtmlElement) (domId : String) : Option HtmlElement :=
  page.find? fun e => e.attrs.lookup "id" = some domId

/-- `extract_login_data`, lines 260-282 of `auth.py`: find the element with id
`kc-form-login` (absence raises `InvalidResponse`), read its `action` attribute
(a `KeyError` raises `InvalidResponse`), parse the action URL's query string
and return `session_code`, `execution` and `tab_id` (a `KeyError` or
`IndexError` raises `InvalidResponse`). -/
def extract_login_data (page : List HtmlElement) : Except AuthError AuthSessData :=
  match findById page "kc-form-login" with
  | none => .error .invalidResponse
  | some login_form =>
    match login_form.attrs.lookup "action" with
    | none => .error .invalidResponse
    | some login_url =>
      let login_data := parse_qsl (urlQuery login_url)
      match login_data.lookup "session_code", login_data.lookup "execution",
            login_data.lookup "tab_id" with
      | some sc, some ex, some tid => .ok ⟨sc, ex, tid⟩
      | _, _, _ => .error .invalidResponse

/-! ## `generate_token` (refresh-token exchange) -/

/-- The parts of a token-endpoint response the code reads: the status code and
the string-valued fields of the JSON body (`id_token` and `refresh_token`, the
only fields the module reads, are strings). -/
structure JsonResponse where
  status : Nat
  json : List (String × String)
  deriving DecidableEq, Repr

/-- `generate_token`, lines 285-315 of `auth.py`, after the POST:
`raise_for_status()` propagates a transport error on a 4xx/5xx status;
otherwise the JSON body must contain `id_token` (a `KeyError` raises
`InvalidResponse`) and the result is
`token_data(id_token, now().timestamp() + TOKEN_TIMEOUT)`.
`now` is the issuance timestamp read inside the call. -/
def generate_token (resp : JsonResponse) (now : Int) : Except AuthError TokenData :=
  if 400 ≤ resp.status then
    .error .httpError
  else
    match resp.json.lookup "id_token" with
    | none => .error .invalidResponse
    | some auth_token => .ok ⟨auth_token, now + TOKEN_TIMEOUT⟩

/-! ## `HubSpaceAuth.token` (orchestration and cache)

The mutable fields `_refresh_token` and `_token_data` form the state; one call
to `token` is one step. The network is an oracle supplied per call: the outcome
of `perform_initial_login` (itself a composition of four network exchanges,
abstracted to its result) and the raw token-endpoint response consumed by
`generate_token` if that exchange is reached. The two `datetime.now()` reads
inside one locked call (expiry check and token issuance) are merged into one
per-call timestamp `now`; this only coarsens real time, which the code does not
otherwise observe. The step also counts how many full login chains and how many
refresh-token exchanges the call performed, for the duplicate-network-call
claims. -/

/-- The mutable credential state of a `HubSpaceAuth` instance:
`_refresh_token` and `_token_data` (both `None` after `__init__`). -/
structure AuthState where
  refresh_token : Option String
  token_data : Option TokenData
  deriving DecidableEq, Repr

/-- The state `HubSpaceAuth.__init__` leaves: both caches empty. -/
def initState : AuthState := ⟨none, none⟩

/-- One call's environment: the current timestamp, the outcome
`perform_initial_login` would produce if invoked, and the token-endpoint
response `generate_token` would consume if invoked. -/
structure StepEnv where
  now : Int
  login : Except AuthError String
  tokenResp : JsonResponse
  deriving Repr

/-- Outcome of one `token` call: the returned bearer string or the exception,
the state after the call, and how many full login chains and refresh-token
exchanges the call performed. -/
structure StepResult where
  result : Except AuthError String
  state : AuthState
  loginCalls : Nat
  tokenExchanges : Nat
  deriving Repr

/-- `HubSpaceAuth.is_expired`, lines 70-75 of `auth.py`: true when no token is
cached or `now().timestamp() >= expiration`. -/
def is_expired (st : AuthState) (now : Int) : Bool :=
  match st.token_data with
  | none => true
  | some td => now ≥ td.expiration

/-- The second half of `HubSpaceAuth.token` (lines 253-257), entered with the
refresh token already cached: if `is_expired`, run `generate_token` and commit
its result to `_token_data` (an exception leaves the cache untouched); finally
return `self._token_data.token` (an `AttributeError` if that cache is still
`None`). `lc` is the number of login chains already performed in this call. -/
def tokenRefreshPhase (st : AuthState) (env : StepEnv) (lc : Nat) : StepResult :=
  if is_expired st env.now then
    match generate_token env.tokenResp env.now with
    | .error e => ⟨.error e, st, lc, 1⟩
    | .ok td => ⟨.ok td.token, { st with token_data := some td }, lc, 1⟩
  else
    match st.token_data with
    | some td => ⟨.ok td.token, st, lc, 0⟩
    | none => ⟨.error .attributeError, st, lc, 0⟩

/-- Python truthiness of the `_refresh_token` field as tested by
`if not self._refresh_token:` on line 251 of `auth.py`: both `None` and the
empty string are falsy. -/
def refreshTokenFalsy : Option String → Bool
  | none => true
  | some s => s = ""

/-- `HubSpaceAuth.token`, lines 249-257 of `auth.py`: under the instance lock,
first run `perform_initial_login` and commit its result to `_refresh_token`
when that field is falsy — `None` or the empty string, per Python truthiness
(a login failure propagates with no state committed) — then run the refresh
phase. -/
def token (st : AuthState) (env : StepEnv) : StepResult :=
  if refreshTokenFalsy st.refresh_token then
    match env.login with
    | .error e => ⟨.error e, st, 1, 0⟩
    | .ok rt => tokenRefreshPhase { st with refresh_token := some rt } env 1
  else
    tokenRefreshPhase st env 0

/-- A sequence of `token` calls on one instance: fold the per-call step,
accumulating the network-call counters. -/
def runCalls (st : AuthState) : List StepEnv → AuthState × Nat × Nat
  | [] => (st, 0, 0)
  | env :: rest =>
    let r := token st env
    let rest' := runCalls r.state rest
    (rest'.1, r.loginCalls + rest'.2.1, r.tokenExchanges + rest'.2.2)

/-! ## `base64.urlsafe_b64encode` and `hashlib.sha256`

Byte-level models of the two standard-library primitives used by
`generate_challenge_data`. Bytes are `Nat`s below 256. -/

/-- The URL-safe base64 alphabet (`-` and `_` replacing `+` and `/`). -/
def b64urlAlphabet : List Char :=
  "ABCDEFGHIJKLMNOPQRSTUVWXYZabcdefghijklmnopqrstuvwxyz0123456789-_".data

/-- Character at a 6-bit index of the URL-safe alphabet. -/
def b64Char (n : Nat) : Char := b64urlAlphabet.getD n 'A'

/-- `base64.urlsafe_b64encode`: 3 input bytes become 4 alphabet characters;
a trailing group of 1 or 2 bytes is `=`-padded to 4 characters. -/
def b64urlEncode : List Nat → List Char
  | [] => []
  | [a] => [b64Char (a / 4), b64Char (a % 4 * 16), '=', '=']
  | [a, b] => [b64Char (a / 4), b64Char (a % 4 * 16 + b / 16), b64Char (b % 16 * 4), '=']
  | a :: b :: c :: rest =>
    b64Char (a / 4) :: b64Char (a % 4 * 16 + b / 16) ::
      b64Char (b % 16 * 4 + c / 64) :: b64Char (c % 64) :: b64urlEncode rest

/-- Truncation to a 32-bit word. -/
def w32 (n : Nat) : Nat := n % 4294967296

/-- Right rotation of a 32-bit word by `n` places. -/
def rotr (n x : Nat) : Nat := w32 ((x >>> n) ||| (x <<< (32 - n)))

/-- SHA-256 `Ch(x,y,z) = (x ∧ y) ⊕ (¬x ∧ z)` on 32-bit words. -/
def shaCh (x y z : Nat) : Nat := (x &&& y) ^^^ ((x ^^^ 4294967295) &&& z)

/-- SHA-256 `Maj(x,y,z) = (x ∧ y) ⊕ (x ∧ z) ⊕ (y ∧ z)`. -/
def shaMaj (x y z : Nat) : Nat := (x &&& y) ^^^ (x &&& z) ^^^ (y &&& z)

/-- SHA-256 `Σ₀`. -/
def bigSigma0 (x : Nat) : Nat := rotr 2 x ^^^ rotr 13 x ^^^ rotr 22 x

/-- SHA-256 `Σ₁`. -/
def bigSigma1 (x : Nat) : Nat := rotr 6 x ^^^ rotr 11 x ^^^ rotr 25 x

/-- SHA-256 `σ₀`. -/
def smallSigma0 (x : Nat) : Nat := rotr 7 x ^^^ rotr 18 x ^^^ (x >>> 3)

/-- SHA-256 `σ₁`. -/
def smallSigma1 (x : Nat) : Nat := rotr 17 x ^^^ rotr 19 x ^^^ (x >>> 10)

/-- The 64 SHA-256 round constants (FIPS 180-2, written in decimal). -/
def sha256K : List Nat :=
  [1116352408, 1899447441, 3049323471, 3921009573, 961987163, 1508970993,
   2453635748, 2870763221, 3624381080, 310598401, 607225278, 1426881987,
   1925078388, 2162078206, 2614888103, 3248222580, 3835390401,
   4022224774, 264347078, 604807628, 770255983, 1249150122, 1555081692,
   1996064986, 2554220882, 2821834349, 2952996808, 3210313671,
   3336571891, 3584528711, 113926993, 338241895, 666307205, 773529912,
   1294757372, 1396182291, 1695183700, 1986661051, 2177026350,
   2456956037, 2730485921, 2820302411, 3259730800, 3345764771,
   3516065817, 3600352804, 4094571909, 275423344, 430227734, 506948616,
   659060556, 883997877, 958139571, 1322822218, 1537002063, 1747873779,
   1955562222, 2024104815, 2227730452, 2361852424, 2428436474,
   2756734187, 3204031479, 3329325298]

/-- The SHA-256 initial hash value (FIPS 180-2, written in decimal). -/
def sha256InitH : List Nat :=
  [1779033703, 3144134277, 1013904242, 2773480762, 1359893119,
   2600822924, 528734635, 1541459225]

/-- An 8-byte big-endian encoding of a length (used for the padding trailer). -/
def beBytes8 (n : Nat) : List Nat :=
  [(n >>> 56) % 256, (n >>> 48) % 256, (n >>> 40) % 256, (n >>> 32) % 256,
   (n >>> 24) % 256, (n >>> 16) % 256, (n >>> 8) % 256, n % 256]

/-- A 4-byte big-endian encoding of a 32-bit word (used for the digest). -/
def beBytes4 (n : Nat) : List Nat :=
  [(n >>> 24) % 256, (n >>> 16) % 256, (n >>> 8) % 256, n % 256]

/-- SHA-256 padding: append `0x80`, zero bytes up to 56 mod 64, and the
bit length as 8 big-endian bytes. -/
def sha256Pad (msg : List Nat) : List Nat :=
  let zeros := (120 - (msg.length + 1) % 64) % 64
  msg ++ 0x80 :: List.replicate zeros 0 ++ beBytes8 (msg.length * 8)

/-- Big-endian 32-bit words of a byte list whose length is a multiple of 4. -/
def toWords : List Nat → List Nat
  | a :: b :: c :: d :: rest =>
    (((a * 256 + b) * 256 + c) * 256 + d) :: toWords rest
  | _ => []

/-- One step of the SHA-256 message-schedule extension: append
`σ₁(w[t-2]) + w[t-7] + σ₀(w[t-15]) + w[t-16]` for `t` the current length. -/
def scheduleStep (w : List Nat) : List Nat :=
  let t := w.length
  w ++ [w32 (smallSigma1 (w.getD (t - 2) 0) + w.getD (t - 7) 0 +
             smallSigma0 (w.getD (t - 15) 0) + w.getD (t - 16) 0)]

/-- One SHA-256 compression round on the working variables `[a,…,h]` with
round constant `k` and schedule word `wt`. -/
def compressRound (k wt : Nat) : List Nat → List Nat
  | [a, b, c, d, e, f, g, h] =>
    let t1 := w32 (h + bigSigma1 e + shaCh e f g + k + wt)
    let t2 := w32 (bigSigma0 a + shaMaj a b c)
    [w32 (t1 + t2), a, b, c, w32 (d + t1), e, f, g]
  | l => l

/-- Process one 64-byte block: extend the 16 words to 64, run the 64 rounds,
add the result into the chaining hash. -/
def processBlock (h : List Nat) (block : List Nat) : List Nat :=
  let w := (List.range 48).foldl (fun w _ => scheduleStep w) (toWords block)
  let v := (sha256K.zip w).foldl (fun v kw => compressRound kw.1 kw.2 v) h
  (h.zip v).map fun p => w32 (p.1 + p.2)

/-- Fold `processBlock` over the 64-byte blocks of a padded message,
accumulating the bytes of the current block in `acc` (the padded length is a
multiple of 64, so every block fills up and is processed). -/
def sha256Fold (h : List Nat) (acc : List Nat) : List Nat → List Nat
  | [] => h
  | b :: rest =>
    let acc2 := acc ++ [b]
    if acc2.length = 64 then sha256Fold (processBlock h acc2) [] rest
    else sha256Fold h acc2 rest

/-- `hashlib.sha256(bytes).digest()`: the 32 digest bytes of a byte list. -/
def sha256 (msg : List Nat) : List Nat :=
  ((sha256Fold sha256InitH [] (sha256Pad msg)).map beBytes4).flatten

/-- `s.encode("utf-8")` for the ASCII strings this module hashes
(the verifier is alphanumeric, so one byte per character). -/
def utf8Bytes (s : String) : List Nat := s.data.map Char.toNat

/-- The character class `[a-zA-Z0-9]` of the verifier-stripping regex. -/
def isAlnum (c : Char) : Bool :=
  (97 ≤ c.toNat && c.toNat ≤ 122) || (65 ≤ c.toNat && c.toNat ≤ 90) ||
    (48 ≤ c.toNat && c.toNat ≤ 57)

/-- `HubSpaceAuth.generate_challenge_data`, lines 126-135 of `auth.py`, with
the 40 `os.urandom` bytes supplied as input: the verifier is the base64url
encoding of the random bytes with every non-alphanumeric character removed
(`re.sub("[^a-zA-Z0-9]+", "", ...)`), and the challenge is the base64url
encoding of the SHA-256 digest of the verifier's UTF-8 bytes with every `=`
removed. -/
def generate_challenge_data (randomBytes : List Nat) : AuthChallenge :=
  let code_verifier : String := String.mk ((b64urlEncode randomBytes).filter isAlnum)
  let code_challenge : String :=
    String.mk ((b64urlEncode (sha256 (utf8Bytes code_verifier))).filter (fun c => !(c = '=')))
  ⟨code_challenge, code_verifier⟩

/-- The challenge-derivation function the spec describes: base64url of the
SHA-256 digest of the verifier's UTF-8 bytes, with every `=` removed.
`generate_challenge_data` computes its challenge as exactly this function of
its verifier. -/
def challengeOfVerifier (v : String) : String :=
  String.mk ((b64urlEncode (sha256 (utf8Bytes v))).filter (fun c => !(c = '=')))

/-! ## Sanity checks of the primitive models

Known-answer tests pinning the SHA-256 and base64url embeddings to the
standard test vectors (FIPS 180-2 appendix B / RFC 4648). -/

/-- FIPS 180-2 test vector: the SHA-256 digest of `"abc"`. -/
theorem sha256_digest_abc :
    sha256 (utf8Bytes "abc") =
      [186, 120, 22, 191, 143, 1, 207, 234, 65, 65, 64, 222, 93, 174, 34, 35,
       176, 3, 97, 163, 150, 23, 122, 156, 180, 16, 255, 97, 242, 0, 21, 173] := by
  decide

/-- The SHA-256 digest of the empty message. -/
theorem sha256_digest_empty :
    sha256 [] =
      [227, 176, 196, 66, 152, 252, 28, 20, 154, 251, 244, 200, 153, 111,
       185, 36, 39, 174, 65, 228, 100, 155, 147, 76, 164, 149, 153, 27, 120,
       82, 184, 85] := by
  decide

/-- RFC 4648 vectors for the URL-safe base64 encoding, including the case
that distinguishes the URL-safe alphabet (`-`, `_`) from the standard one. -/
theorem b64url_known_answers :
    String.mk (b64urlEncode (utf8Bytes "foobar")) = "Zm9vYmFy" ∧
    String.mk (b64urlEncode (utf8Bytes "foob")) = "Zm9vYg==" ∧
    String.mk (b64urlEncode [0xfb, 0xef, 0xbe]) = "----" := by decide

/-! ## Claim theorems -/

/-- C2: for every credential-submission response, a status other than 302
yields `InvalidResponse`; a 302 whose `Location` query string carries a `code`
parameter yields exactly that code's (first) value; a 302 with a `Location`
but no `code` parameter yields `InvalidAuth`, an error distinct from
`InvalidResponse`. -/
theorem C2_generate_code_cases (resp : CodeResponse) :
    (resp.status ≠ 302 → generate_code resp = .error .invalidResponse) ∧
    (∀ loc c, resp.status = 302 → resp.location = some loc →
      firstQsValue (urlQuery loc) "code" = some c →
      generate_code resp = .ok c) ∧
    (∀ loc, resp.status = 302 → resp.location = some loc →
      firstQsValue (urlQuery loc) "code" = none →
      generate_code resp = .error .invalidAuth) ∧
    AuthError.invalidAuth ≠ AuthError.invalidResponse := by
  refine ⟨fun h => by simp [generate_code, h],
          fun loc c h1 h2 h3 => by simp [generate_code, h1, h2, h3],
          fun loc h1 h2 h3 => by simp [generate_code, h1, h2, h3],
          by decide⟩

/-- Witness for C2 at concrete responses: a 302 redirect carrying
`code=ABC123` returns `ABC123`; a 200 is `InvalidResponse`; a 302 without a
`code` parameter is `InvalidAuth`. -/
theorem C2_generate_code_cases_witness :
    generate_code ⟨302, some "hubspace-app://loginredirect?session_state=s&code=ABC123"⟩ =
      .ok "ABC123" ∧
    generate_code ⟨200, some "u?code=ABC123"⟩ = .error .invalidResponse ∧
    generate_code ⟨302, some "u?session_state=s"⟩ = .error .invalidAuth :=
  ⟨(C2_generate_code_cases ⟨302, some "hubspace-app://loginredirect?session_state=s&code=ABC123"⟩).2.1
      "hubspace-app://loginredirect?session_state=s&code=ABC123" "ABC123" rfl rfl (by decide),
   (C2_generate_code_cases ⟨200, some "u?code=ABC123"⟩).1 (by decide),
   (C2_generate_code_cases ⟨302, some "u?session_state=s"⟩).2.2.1 "u?session_state=s" rfl rfl (by decide)⟩

/-- C10: a 302 credential-submission response with no `Location` header at all
is reported as `InvalidAuth` (the `KeyError` on the missing header lands in
the same handler as a missing `code` parameter), not as `InvalidResponse`. -/
theorem C10_missing_location_is_invalid_auth (resp : CodeResponse)
    (h302 : resp.status = 302) (hloc : resp.location = none) :
    generate_code resp = .error .invalidAuth := by
  simp [generate_code, h302, hloc]

/-- Witness for C10: a bare 302 with no `Location` header. -/
theorem C10_missing_location_is_invalid_auth_witness :
    generate_code ⟨302, none⟩ = .error .invalidAuth :=
  C10_missing_location_is_invalid_auth ⟨302, none⟩ rfl rfl

/-- C3: for every token-endpoint response that passes `raise_for_status`
(status below 400), a JSON body containing `id_token` yields a token whose
bearer string is that value and whose expiration is the issuance time plus
exactly 118 seconds; a body without `id_token` raises `InvalidResponse`. -/
theorem C3_generate_token_cases (resp : JsonResponse) (now : Int)
    (hok : resp.status < 400) :
    (∀ t, resp.json.lookup "id_token" = some t →
      generate_token resp now = .ok ⟨t, now + 118⟩) ∧
    (resp.json.lookup "id_token" = none →
      generate_token resp now = .error .invalidResponse) := by
  constructor
  · intro t ht
    simp [generate_token, ht, TOKEN_TIMEOUT, Nat.not_le.mpr hok]
  · intro ht
    simp [generate_token, ht, Nat.not_le.mpr hok]

/-- Witness for C3 at a concrete response and timestamp. -/
theorem C3_generate_token_cases_witness :
    generate_token ⟨200, [("id_token", "tok"), ("expires_in", "600")]⟩ 1000 =
      .ok ⟨"tok", 1118⟩ ∧
    generate_token ⟨200, [("access_token", "a")]⟩ 1000 = .error .invalidResponse :=
  ⟨(C3_generate_token_cases ⟨200, [("id_token", "tok"), ("expires_in", "600")]⟩ 1000
      (by decide)).1 "tok" (by decide),
   (C3_generate_token_cases ⟨200, [("access_token", "a")]⟩ 1000 (by decide)).2 (by decide)⟩

/-- C5: for every login page, if the `kc-form-login` element is present with
an `action` attribute whose URL query carries `session_code`, `execution` and
`tab_id`, extraction returns exactly those three values; a missing form, a
missing `action`, or any missing key raises `InvalidResponse`. -/
theorem C5_extract_login_data_cases (page : List HtmlElement) :
    (∀ form url sc ex tid,
      findById page "kc-form-login" = some form →
      form.attrs.lookup "action" = some url →
      (parse_qsl (urlQuery url)).lookup "session_code" = some sc →
      (parse_qsl (urlQuery url)).lookup "execution" = some ex →
      (parse_qsl (urlQuery url)).lookup "tab_id" = some tid →
      extract_login_data page = .ok ⟨sc, ex, tid⟩) ∧
    (findById page "kc-form-login" = none →
      extract_login_data page = .error .invalidResponse) ∧
    (∀ form, findById page "kc-form-login" = some form →
      form.attrs.lookup "action" = none →
      extract_login_data page = .error .invalidResponse) ∧
    (∀ form url, findById page "kc-form-login" = some form →
      form.attrs.lookup "action" = some url →
      ((parse_qsl (urlQuery url)).lookup "session_code" = none ∨
       (parse_qsl (urlQuery url)).lookup "execution" = none ∨
       (parse_qsl (urlQuery url)).lookup "tab_id" = none) →
      extract_login_data page = .error .invalidResponse) := by
  refine ⟨fun form url sc ex tid h1 h2 h3 h4 h5 => ?_, fun h1 => ?_,
          fun form h1 h2 => ?_, fun form url h1 h2 h3 => ?_⟩
  · simp [extract_login_data, h1, h2, h3, h4, h5]
  · simp [extract_login_data, h1]
  · simp [extract_login_data, h1, h2]
  · rcases h3 with h3 | h3 | h3
    · simp [extract_login_data, h1, h2, h3]
    · cases hsc : (parse_qsl (urlQuery url)).lookup "session_code" <;>
        simp [extract_login_data, h1, h2, h3, hsc]
    · cases hsc : (parse_qsl (urlQuery url)).lookup "session_code" <;>
        cases hex : (parse_qsl (urlQuery url)).lookup "execution" <;>
          simp [extract_login_data, h1, h2, h3, hsc, hex]

/-- Witness for C5: a concrete page with the login form against its three
extracted values, and a page without the form. -/
theorem C5_extract_login_data_cases_witness :
    extract_login_data
        [⟨[("id", "kc-form-login"),
           ("action", "https://a/x?session_code=SC&execution=EX&tab_id=TI")]⟩] =
      .ok ⟨"SC", "EX", "TI"⟩ ∧
    extract_login_data [⟨[("id", "other-form")]⟩] = .error .invalidResponse :=
  ⟨(C5_extract_login_data_cases
      [⟨[("id", "kc-form-login"),
         ("action", "https://a/x?session_code=SC&execution=EX&tab_id=TI")]⟩]).1
      ⟨[("id", "kc-form-login"),
        ("action", "https://a/x?session_code=SC&execution=EX&tab_id=TI")]⟩
      "https://a/x?session_code=SC&execution=EX&tab_id=TI" "SC" "EX" "TI"
      (by decide) (by decide) (by decide) (by decide) (by decide),
   (C5_extract_login_data_cases [⟨[("id", "other-form")]⟩]).2.1 (by decide)⟩

/-- C6: for every draw of the 40 random bytes, the verifier is the base64url
encoding of those bytes with every non-alphanumeric character stripped (hence
consists only of alphanumerics), and the challenge is exactly
`challengeOfVerifier` of the verifier — base64url of the SHA-256 digest of the
verifier's UTF-8 bytes with `=` padding removed — so equal verifiers always
yield equal challenges. -/
theorem C6_challenge_derivation (randomBytes : List Nat) :
    (generate_challenge_data randomBytes).verifier =
      String.mk ((b64urlEncode randomBytes).filter isAlnum) ∧
    (∀ c, c ∈ (generate_challenge_data randomBytes).verifier.data → isAlnum c = true) ∧
    (generate_challenge_data randomBytes).challenge =
      challengeOfVerifier (generate_challenge_data randomBytes).verifier ∧
    (∀ bs2, (generate_challenge_data randomBytes).verifier =
        (generate_challenge_data bs2).verifier →
      (generate_challenge_data randomBytes).challenge =
        (generate_challenge_data bs2).challenge) := by
  refine ⟨rfl, fun c hc => ?_, rfl, fun bs2 h => ?_⟩
  · have hd : (generate_challenge_data randomBytes).verifier.data =
        (b64urlEncode randomBytes).filter isAlnum := rfl
    rw [hd] at hc
    exact (List.mem_filter.mp hc).2
  · calc (generate_challenge_data randomBytes).challenge
        = challengeOfVerifier (generate_challenge_data randomBytes).verifier := rfl
      _ = challengeOfVerifier (generate_challenge_data bs2).verifier := by rw [h]
      _ = (generate_challenge_data bs2).challenge := rfl

/-- Witness for C6 at a concrete byte draw `[0, 255, 10]` (verifier `AP8K`):
its first verifier character is alphanumeric, and the determinism conjunct
applies to the draw itself. -/
theorem C6_challenge_derivation_witness :
    isAlnum 'A' = true ∧
    (generate_challenge_data [0, 255, 10]).challenge =
      (generate_challenge_data [0, 255, 10]).challenge :=
  ⟨(C6_challenge_derivation [0, 255, 10]).2.1 'A' (by decide),
   (C6_challenge_derivation [0, 255, 10]).2.2.2 [0, 255, 10] rfl⟩

/-! Structural lemmas about one `token` step, shared by the cache claims. -/

/-- With a cached non-empty (truthy) refresh token the login chain is
skipped: the call is just the refresh phase with zero login calls. -/
theorem token_some_refresh (st : AuthState) (env : StepEnv) (r : String)
    (hr : st.refresh_token = some r) (hne : r ≠ "") :
    token st env = tokenRefreshPhase st env 0 := by
  unfold token
  rw [hr]
  simp [refreshTokenFalsy, hne]

/-- `is_expired` holds exactly when no token is cached or its expiration is at
or before the given time. -/
theorem is_expired_iff (st : AuthState) (now : Int) :
    is_expired st now = true ↔
      (st.token_data = none ∨ ∃ td, st.token_data = some td ∧ td.expiration ≤ now) := by
  cases h : st.token_data <;> simp [is_expired, h]

/-- A valid cached token is returned as-is: no exchange, no state change. -/
theorem tokenRefreshPhase_not_expired (st : AuthState) (env : StepEnv) (lc : Nat)
    (td : TokenData) (ht : st.token_data = some td) (hv : env.now < td.expiration) :
    tokenRefreshPhase st env lc = ⟨.ok td.token, st, lc, 0⟩ := by
  have he : is_expired st env.now = false := by
    simp [is_expired, ht]
    omega
  unfold tokenRefreshPhase
  rw [he]
  simp [ht]

/-- An expired (or absent) token with a successful exchange commits the fresh
token and returns its bearer string. -/
theorem tokenRefreshPhase_expired_ok (st : AuthState) (env : StepEnv) (lc : Nat)
    (td : TokenData) (he : is_expired st env.now = true)
    (hgt : generate_token env.tokenResp env.now = .ok td) :
    tokenRefreshPhase st env lc = ⟨.ok td.token, { st with token_data := some td }, lc, 1⟩ := by
  unfold tokenRefreshPhase
  rw [he]
  simp [hgt]

/-- The refresh phase never touches `_refresh_token` and performs no login. -/
theorem tokenRefreshPhase_refresh_unchanged (st : AuthState) (env : StepEnv) (lc : Nat) :
    (tokenRefreshPhase st env lc).state.refresh_token = st.refresh_token ∧
    (tokenRefreshPhase st env lc).loginCalls = lc := by
  unfold tokenRefreshPhase
  cases he : is_expired st env.now <;> simp
  · cases ht : st.token_data <;> simp
  · cases hgt : generate_token env.tokenResp env.now <;> simp

/-- On a refresh-phase exception the state is exactly the entry state. -/
theorem tokenRefreshPhase_state_on_error (st : AuthState) (env : StepEnv) (lc : Nat)
    (e : AuthError) (h : (tokenRefreshPhase st env lc).result = .error e) :
    (tokenRefreshPhase st env lc).state = st := by
  unfold tokenRefreshPhase at h ⊢
  cases he : is_expired st env.now <;> simp [he] at h ⊢
  · cases ht : st.token_data <;> simp [ht, he] at h ⊢
  · cases hgt : generate_token env.tokenResp env.now <;> simp [hgt, he] at h ⊢

/-- A token produced by `generate_token` expires exactly `TOKEN_TIMEOUT`
seconds after its issuance time. -/
theorem generate_token_ok_expiration (resp : JsonResponse) (now : Int) (td : TokenData)
    (h : generate_token resp now = .ok td) : td.expiration = now + TOKEN_TIMEOUT := by
  unfold generate_token at h
  split at h
  · simp at h
  · cases hj : resp.json.lookup "id_token" <;> rw [hj] at h <;> simp at h
    subst h
    rfl

/-- A successful refresh phase always ends with a cached token that carries
the returned bearer string and is strictly unexpired at the call's time. -/
theorem tokenRefreshPhase_ok_valid (st : AuthState) (env : StepEnv) (lc : Nat) (s : String)
    (h : (tokenRefreshPhase st env lc).result = .ok s) :
    ∃ td, (tokenRefreshPhase st env lc).state.token_data = some td ∧ td.token = s ∧
      env.now < td.expiration := by
  unfold tokenRefreshPhase at h ⊢
  cases he : is_expired st env.now <;> simp [he] at h ⊢
  · cases ht : st.token_data with
    | none => simp [ht, he] at h
    | some td =>
      simp [ht] at h ⊢
      have hlt : env.now < td.expiration := by
        have hf := he
        simp [is_expired, ht] at hf
        omega
      exact ⟨h, hlt⟩
  · cases hgt : generate_token env.tokenResp env.now with
    | error e => simp [hgt] at h
    | ok td =>
      simp [hgt] at h ⊢
      have hexp := generate_token_ok_expiration env.tokenResp env.now td hgt
      rw [hexp]
      simp [TOKEN_TIMEOUT]
      exact h

/-- Counterexample to C1 as stated: the empty string is a cached Refresh
Token (non-null) but is falsy to Python's `if not self._refresh_token:`.
First conjunct: with `some ""` cached and a valid cached token (expiring at
2000, call at 1000) the call still performs a full login chain — a network
exchange — even though no refresh-token exchange runs. Second conjunct: on a
fresh instance whose login chain yields the empty refresh token, two calls in
immediate succession perform two full login chains, not one. -/
theorem C1_counterexample :
    ((token ⟨some "", some ⟨"TOK", 2000⟩⟩
        ⟨1000, .ok "RT", ⟨200, [("id_token", "T2")]⟩⟩).loginCalls = 1 ∧
      (token ⟨some "", some ⟨"TOK", 2000⟩⟩
        ⟨1000, .ok "RT", ⟨200, [("id_token", "T2")]⟩⟩).tokenExchanges = 0) ∧
    (runCalls initState
        [⟨1000, .ok "", ⟨200, [("id_token", "TOK")]⟩⟩,
         ⟨1100, .ok "", ⟨200, [("id_token", "T2")]⟩⟩]).2.1 = 2 := by
  decide

/-- C1 amended: with a *non-empty* refresh token cached, one `token` call
performs a refresh-token exchange exactly when the cached token is absent or
expires at or before the call's time, and otherwise returns the cached bearer
with no network exchange and no state change; and two calls in immediate
succession (the second before the first's token expires) on a fresh
`HubSpaceAuth` perform exactly one full login chain and exactly one token
exchange provided the login chain yields a *non-empty* refresh token (an
empty one is falsy to the `if not self._refresh_token:` check and re-triggers
the login chain). -/
theorem C1_refresh_exchange_iff (st : AuthState) (env env1 env2 : StepEnv) :
    (∀ r, st.refresh_token = some r → r ≠ "" →
      (((token st env).tokenExchanges = 1) ↔
        (st.token_data = none ∨ ∃ td, st.token_data = some td ∧ td.expiration ≤ env.now)) ∧
      (∀ td, st.token_data = some td → env.now < td.expiration →
        token st env = ⟨.ok td.token, st, 0, 0⟩)) ∧
    (∀ rt t, rt ≠ "" → env1.login = .ok rt → env1.tokenResp.status < 400 →
      env1.tokenResp.json.lookup "id_token" = some t →
      env2.now < env1.now + TOKEN_TIMEOUT →
      runCalls initState [env1, env2] =
        (⟨some rt, some ⟨t, env1.now + TOKEN_TIMEOUT⟩⟩, 1, 1)) := by
  constructor
  · intro r hr hne
    constructor
    · rw [token_some_refresh st env r hr hne, ← is_expired_iff st env.now]
      unfold tokenRefreshPhase
      cases he : is_expired st env.now <;> simp [he]
      · cases ht : st.token_data <;> simp
      · cases hgt : generate_token env.tokenResp env.now <;> simp
    · intro td ht hv
      rw [token_some_refresh st env r hr hne, tokenRefreshPhase_not_expired st env 0 td ht hv]
  · intro rt t hrtne hl hst hid hnow
    have hgt : generate_token env1.tokenResp env1.now = .ok ⟨t, env1.now + TOKEN_TIMEOUT⟩ := by
      simp [generate_token, hid, Nat.not_le.mpr hst]
    have h1 : token initState env1 =
        ⟨.ok t, ⟨some rt, some ⟨t, env1.now + TOKEN_TIMEOUT⟩⟩, 1, 1⟩ := by
      have hrp := tokenRefreshPhase_expired_ok ⟨some rt, none⟩ env1 1
        ⟨t, env1.now + TOKEN_TIMEOUT⟩ rfl hgt
      simp [token, initState, refreshTokenFalsy, hl, hrp]
    have h2 : token ⟨some rt, some ⟨t, env1.now + TOKEN_TIMEOUT⟩⟩ env2 =
        ⟨.ok t, ⟨some rt, some ⟨t, env1.now + TOKEN_TIMEOUT⟩⟩, 0, 0⟩ := by
      rw [token_some_refresh _ env2 rt rfl hrtne,
        tokenRefreshPhase_not_expired _ env2 0 ⟨t, env1.now + TOKEN_TIMEOUT⟩ rfl hnow]
    simp [runCalls, h1, h2]

/-- Witness for C1: a fresh instance, a first call at time 1000 that logs in
and exchanges once (yielding the non-empty refresh token `RT`), and a second
call at time 1100 (before the 1118 expiry) that touches the network zero
times. -/
theorem C1_refresh_exchange_iff_witness :
    runCalls initState
        [⟨1000, .ok "RT", ⟨200, [("id_token", "TOK")]⟩⟩,
         ⟨1100, .ok "RT2", ⟨200, [("id_token", "TOK2")]⟩⟩] =
      (⟨some "RT", some ⟨"TOK", 1118⟩⟩, 1, 1) :=
  (C1_refresh_exchange_iff initState ⟨0, .error .invalidAuth, ⟨200, []⟩⟩
      ⟨1000, .ok "RT", ⟨200, [("id_token", "TOK")]⟩⟩
      ⟨1100, .ok "RT2", ⟨200, [("id_token", "TOK2")]⟩⟩).2
    "RT" "TOK" (by decide) rfl (by decide) (by decide) (by decide)

/-- C4: when a `token` call raises, the token cache is exactly what it was
before the call — it is only ever overwritten by a fully successful token
exchange — and the refresh-token cache is either untouched or, only when it
was falsy (`None` or empty, so the login chain ran) and that login chain
itself fully succeeded before a later step failed, set to that successful
login's result; the refresh-token cache is never cleared back to `None`. -/
theorem C4_failure_preserves_caches (st : AuthState) (env : StepEnv) (e : AuthError)
    (herr : (token st env).result = .error e) :
    (token st env).state.token_data = st.token_data ∧
    ((token st env).state.refresh_token = st.refresh_token ∨
      (refreshTokenFalsy st.refresh_token = true ∧ ∃ rt, env.login = .ok rt ∧
        (token st env).state.refresh_token = some rt)) ∧
    (st.refresh_token ≠ none → (token st env).state.refresh_token ≠ none) := by
  cases hf : refreshTokenFalsy st.refresh_token with
  | false =>
    have htok : token st env = tokenRefreshPhase st env 0 := by
      unfold token
      rw [hf]
      simp
    rw [htok] at herr ⊢
    rw [tokenRefreshPhase_state_on_error st env 0 e herr]
    exact ⟨rfl, .inl rfl, fun h => h⟩
  | true =>
    cases hl : env.login with
    | error e2 =>
      have htok : token st env = ⟨.error e2, st, 1, 0⟩ := by
        simp [token, hf, hl]
      rw [htok]
      exact ⟨rfl, .inl rfl, fun h => h⟩
    | ok rt =>
      have htok : token st env = tokenRefreshPhase { st with refresh_token := some rt } env 1 := by
        simp [token, hf, hl]
      rw [htok] at herr ⊢
      rw [tokenRefreshPhase_state_on_error _ env 1 e herr]
      exact ⟨rfl, .inr ⟨rfl, rt, rfl, rfl⟩, fun h => by simp⟩

/-- Witness for C4: a fresh instance whose login chain fails with
`InvalidAuth` commits nothing to the token cache. -/
theorem C4_failure_preserves_caches_witness :
    (token initState ⟨0, .error .invalidAuth, ⟨200, []⟩⟩).state.token_data = none :=
  (C4_failure_preserves_caches initState ⟨0, .error .invalidAuth, ⟨200, []⟩⟩
    .invalidAuth (by decide)).1

/-- Counterexample to C7 as stated: the empty string is a non-null cached
Refresh Token, yet one further `token` call runs a full login chain (the
falsy check treats `""` like `None`) and replaces the cached value with the
newly derived refresh token. -/
theorem C7_counterexample :
    (runCalls ⟨some "", none⟩
        [⟨1000, .ok "RT", ⟨200, [("id_token", "TOK")]⟩⟩]).2.1 = 1 ∧
    (runCalls ⟨some "", none⟩
        [⟨1000, .ok "RT", ⟨200, [("id_token", "TOK")]⟩⟩]).1.refresh_token = some "RT" := by
  decide

/-- C7 amended: across every sequence of `token` calls starting from a state
whose cached refresh token is non-null *and non-empty* (truthy), the refresh
token stays exactly that value — it is never cleared back to `None` and never
re-derived — and not a single further login chain runs; a cached empty-string
refresh token is falsy and is re-derived like an absent one. -/
theorem C7_refresh_token_monotone (st : AuthState) (envs : List StepEnv) (r : String)
    (hr : st.refresh_token = some r) (hne : r ≠ "") :
    (runCalls st envs).1.refresh_token = some r ∧ (runCalls st envs).2.1 = 0 := by
  induction envs generalizing st with
  | nil => simp [runCalls, hr]
  | cons env rest ih =>
    have htok : token st env = tokenRefreshPhase st env 0 := token_some_refresh st env r hr hne
    have hru := tokenRefreshPhase_refresh_unchanged st env 0
    have hstate : (token st env).state.refresh_token = some r := by
      rw [htok, hru.1, hr]
    have hlc : (token st env).loginCalls = 0 := by
      rw [htok]
      exact hru.2
    have ihh := ih (token st env).state hstate
    simp [runCalls, hlc, ihh.1, ihh.2]

/-- Witness for C7: one call whose token exchange fails with a 500 still
leaves the cached non-empty refresh token in place and runs no login chain. -/
theorem C7_refresh_token_monotone_witness :
    (runCalls ⟨some "RT", none⟩ [⟨5, .ok "OTHER", ⟨500, []⟩⟩]).1.refresh_token = some "RT" ∧
    (runCalls ⟨some "RT", none⟩ [⟨5, .ok "OTHER", ⟨500, []⟩⟩]).2.1 = 0 :=
  C7_refresh_token_monotone ⟨some "RT", none⟩ [⟨5, .ok "OTHER", ⟨500, []⟩⟩] "RT" rfl (by decide)

/-- C8: whenever a `token` call returns a bearer string, the final cached
token carries exactly that string and is strictly unexpired at the call's
time — an expired cached token is always replaced before its bearer is handed
out. -/
theorem C8_returned_token_unexpired (st : AuthState) (env : StepEnv) (s : String)
    (h : (token st env).result = .ok s) :
    ∃ td, (token st env).state.token_data = some td ∧ td.token = s ∧
      env.now < td.expiration := by
  cases hf : refreshTokenFalsy st.refresh_token with
  | false =>
    have htok : token st env = tokenRefreshPhase st env 0 := by
      unfold token
      rw [hf]
      simp
    rw [htok] at h ⊢
    exact tokenRefreshPhase_ok_valid st env 0 s h
  | true =>
    cases hl : env.login with
    | error e =>
      have htok : token st env = ⟨.error e, st, 1, 0⟩ := by
        simp [token, hf, hl]
      rw [htok] at h
      simp at h
    | ok rt =>
      have htok : token st env = tokenRefreshPhase { st with refresh_token := some rt } env 1 := by
        simp [token, hf, hl]
      rw [htok] at h ⊢
      exact tokenRefreshPhase_ok_valid _ env 1 s h

/-- Witness for C8: a call at time 1000 that refreshes an empty token cache
ends with the returned bearer cached and unexpired. -/
theorem C8_returned_token_unexpired_witness :
    ∃ td,
      (token ⟨some "RT", none⟩
        ⟨1000, .ok "X", ⟨200, [("id_token", "TOK")]⟩⟩).state.token_data = some td ∧
      td.token = "TOK" ∧ (1000 : Int) < td.expiration :=
  C8_returned_token_unexpired ⟨some "RT", none⟩
    ⟨1000, .ok "X", ⟨200, [("id_token", "TOK")]⟩⟩ "TOK" (by decide)
